import Mathlib

/-!
Shallow embedding of the WebApp-ToDo Flask application
(`src/models.py`, `src/forms.py`, `src/app.py`) and proofs about it.

Modelling conventions:
* timestamps (`datetime.utcnow()`) are integers counting seconds;
* calendar dates (`datetime.date`) are `SimpleDate` triples compared
  lexicographically, exactly as Python compares valid dates;
* nullable database columns are `Option` fields;
* the WTForms layer is modelled at the processed-field level: a
  `TaskFormData` record holds each field's submitted data, and the
  validators declared in `forms.py` are replayed on it; the `due_date`
  `DateField` additionally keeps its raw-processing outcome (absent,
  unparsable, or parsed), because `DateField.process_formdata` raises on
  an unparsable value — including the empty string a blank HTML date
  input submits — and that process error fails `super().validate()`;
* SQLAlchemy queries over the task table are functions on a `List Task`
  snapshot of the table, and `db.session.commit()` is the returned list.
-/

namespace Todo

/-- Calendar date as in Python's `datetime.date`; valid dates compare
lexicographically on (year, month, day). -/
structure SimpleDate where
  year : Nat
  month : Nat
  day : Nat
deriving Repr, DecidableEq

/-- Python's `<` on `datetime.date` values (lexicographic for valid dates). -/
def SimpleDate.lt (a b : SimpleDate) : Bool :=
  a.year < b.year ∨ (a.year = b.year ∧ (a.month < b.month ∨ (a.month = b.month ∧ a.day < b.day)))

/-- The `Task` model of `src/models.py`: columns `id`, `title`,
`description` (nullable), `priority`, `is_completed`, `created_at`,
`completed_at` (nullable), `due_date` (nullable), `user_id`. -/
structure Task where
  id : Nat
  title : String
  description : Option String
  priority : String
  is_completed : Bool
  created_at : Int
  completed_at : Option Int
  due_date : Option SimpleDate
  user_id : Nat
deriving Repr, DecidableEq

/-- The `User` model of `src/models.py` (fields used by the claims). -/
structure User where
  id : Nat
  username : String
  password_hash : String
deriving Repr, DecidableEq

/-! ### The task form (`src/forms.py`, class `TaskForm`)

`TaskFormData` is the processed data of a submitted `TaskForm`:
`title.data` and `description.data` are the submitted strings (empty
when the input was left blank), `priority` is `none` when the select
field was absent from the form data (WTForms then keeps the declared
default `"Medium"`), `due_date` is the raw-processing outcome of the
`DateField` and `is_completed.data` the checkbox state. -/

/-- Raw submission state of the `due_date` `DateField`: the field can
be absent from the form data entirely (`process_formdata` is not
called, `data` stays at the default `None`, no error), present but
unparsable by `strptime(date_str, "%Y-%m-%d")` — the HTML form submits
the empty string "" when the date input is left blank, and "" is
unparsable — or present and successfully parsed. -/
inductive RawDate where
  | absent
  | malformed
  | parsed (d : SimpleDate)
deriving Repr, DecidableEq

/-- Field data after `DateField.process_formdata`: `None` unless a
date was parsed (on a parse failure the field sets `self.data = None`
before raising). -/
def dueDateData : RawDate → Option SimpleDate
  | .parsed d => some d
  | _ => none

/-- Process errors recorded for the `due_date` field: a present but
unparsable value makes `DateField.process_formdata` raise
`ValueError("Not a valid date value.")`, which WTForms stores as a
process error and seeds into the field's errors when the form
validates; the field declares `validators=[]` without `Optional()`, so
nothing clears it. -/
def dueDateProcessErrors : RawDate → List String
  | .malformed => ["Not a valid date value."]
  | _ => []

structure TaskFormData where
  title : String
  description : String
  priority : Option String
  due_date : RawDate
  is_completed : Bool
deriving Repr, DecidableEq

/-- The effective data of the `priority` `SelectField`: the submitted
value, or the declared default `"Medium"` when the field was absent. -/
def priorityData (f : TaskFormData) : String :=
  f.priority.getD "Medium"

/-- The declared choices of the `priority` `SelectField`. -/
def priorityChoices : List String := ["Low", "Medium", "High"]

/-- Errors of the `title` field: `DataRequired` with the custom message,
then `Length(max=120)` with the WTForms default message. `DataRequired`
stops the chain, so the length validator only runs on non-empty data. -/
def titleErrors (title : String) : List String :=
  if title = "" then ["Please provide a title for the task."]
  else if title.length > 120 then ["Field cannot be longer than 120 characters."]
  else []

/-- Errors of the `description` field: `Length(max=1000)`. -/
def descriptionErrors (d : String) : List String :=
  if d.length > 1000 then ["Field cannot be longer than 1000 characters."] else []

/-- Errors of the `priority` field: the `SelectField` choice check
followed by `DataRequired` (WTForms default messages). -/
def priorityErrors (p : String) : List String :=
  (if p ∈ priorityChoices then [] else ["Not a valid choice."]) ++
    (if p = "" then ["This field is required."] else [])

/-- The field-level errors produced by `FlaskForm.validate` (the
`super().validate(extra_validators)` call in `TaskForm.validate`),
tagged with the field name. Each field's errors start from its process
errors and then run its validator chain; `due_date` declares
`validators=[]`, so its only possible error is the parse-failure
process error. -/
def fieldErrors (f : TaskFormData) : List (String × String) :=
  (titleErrors f.title).map (fun m => ("title", m)) ++
    (descriptionErrors f.description).map (fun m => ("description", m)) ++
    (priorityErrors (priorityData f)).map (fun m => ("priority", m)) ++
    (dueDateProcessErrors f.due_date).map (fun m => ("due_date", m))

/-- Cutoff date of the custom validator: `date(2000, 1, 1)`. -/
def minDueDate : SimpleDate := ⟨2000, 1, 1⟩

/-- Method `TaskForm.validate` of `src/forms.py`: run the field validators; on
failure return `False` with their errors; otherwise, if a due date is
present and earlier than `date(2000, 1, 1)`, append the realistic-date
message to `due_date.errors` and return `False`; else return `True`. -/
def TaskForm.validate (f : TaskFormData) : Bool × List (String × String) :=
  let errs := fieldErrors f
  if errs.isEmpty then
    match dueDateData f.due_date with
    | some d =>
      if SimpleDate.lt d minDueDate then
        (false, [("due_date", "Please choose a realistic due date.")])
      else (true, [])
    | none => (true, [])
  else (false, errs)

/-! ### Task routes (`src/app.py`) -/

/-- Outcome of a task route: `first_or_404` miss, re-render of the form
on validation failure, or the success redirect to the dashboard. -/
inductive Outcome where
  | notFound
  | rerender
  | redirectDashboard
deriving Repr, DecidableEq

/-- A route's outcome together with the task table after the request. -/
structure StepResult where
  outcome : Outcome
  tasks : List Task
deriving Repr, DecidableEq

/-- Query `Task.query.filter_by(id=task_id, user_id=g.user.id).first()`. -/
def findOwned (tid uid : Nat) (tasks : List Task) : Option Task :=
  tasks.find? (fun t => t.id == tid && t.user_id == uid)

/-- Mutate the first task matching `p` in place (SQLAlchemy mutates the
object returned by `first_or_404`, then commits). -/
def updateFirst (p : Task → Bool) (g : Task → Task) : List Task → List Task
  | [] => []
  | t :: ts => if p t then g t :: ts else t :: updateFirst p g ts

/-- The `Task(...)` constructor call in `create_task` of `src/app.py`:
form fields copied over, `user_id=g.user.id`, `is_completed=False`
explicitly; `created_at` comes from the column default `datetime.utcnow`
and `completed_at` from the nullable column default (absent). -/
def newTask (now : Int) (newId uid : Nat) (f : TaskFormData) : Task :=
  { id := newId
    title := f.title
    description := some f.description
    priority := priorityData f
    is_completed := false
    created_at := now
    completed_at := none
    due_date := dueDateData f.due_date
    user_id := uid }

/-- Route `create_task` of `src/app.py`: on a valid submission, add the
new task and redirect; otherwise re-render the form. -/
def createTask (now : Int) (newId uid : Nat) (f : TaskFormData) (tasks : List Task) :
    StepResult :=
  if (TaskForm.validate f).1 then
    ⟨.redirectDashboard, tasks ++ [newTask now newId uid f]⟩
  else ⟨.rerender, tasks⟩

/-- Body of `edit_task`'s valid-submission branch in `src/app.py`:
overwrite the editable fields, then synchronize `completed_at` with the
transition of `is_completed`. -/
def applyEdit (now : Int) (f : TaskFormData) (t : Task) : Task :=
  let previously_completed := t.is_completed
  let t' := { t with
    title := f.title
    description := some f.description
    priority := priorityData f
    due_date := dueDateData f.due_date
    is_completed := f.is_completed }
  if t'.is_completed && !previously_completed then { t' with completed_at := some now }
  else if !t'.is_completed then { t' with completed_at := none }
  else t'

/-- Route `edit_task` of `src/app.py`: `first_or_404` scoped to the
current user, then validate and update, or re-render. -/
def editTask (now : Int) (uid tid : Nat) (f : TaskFormData) (tasks : List Task) :
    StepResult :=
  match findOwned tid uid tasks with
  | none => ⟨.notFound, tasks⟩
  | some _ =>
    if (TaskForm.validate f).1 then
      ⟨.redirectDashboard,
        updateFirst (fun t => t.id == tid && t.user_id == uid) (applyEdit now f) tasks⟩
    else ⟨.rerender, tasks⟩

/-- Body of `toggle_complete` in `src/app.py`: flip `is_completed`;
stamp `completed_at` when now complete, clear it when now incomplete. -/
def applyToggle (now : Int) (t : Task) : Task :=
  let t' := { t with is_completed := !t.is_completed }
  if t'.is_completed then { t' with completed_at := some now }
  else { t' with completed_at := none }

/-- Route `toggle_complete` of `src/app.py`. -/
def toggleComplete (now : Int) (uid tid : Nat) (tasks : List Task) : StepResult :=
  match findOwned tid uid tasks with
  | none => ⟨.notFound, tasks⟩
  | some _ =>
    ⟨.redirectDashboard,
      updateFirst (fun t => t.id == tid && t.user_id == uid) (applyToggle now) tasks⟩

/-- Route `delete_task` of `src/app.py`: `first_or_404` scoped to the
current user, then `db.session.delete(task)`. -/
def deleteTask (uid tid : Nat) (tasks : List Task) : StepResult :=
  match findOwned tid uid tasks with
  | none => ⟨.notFound, tasks⟩
  | some _ =>
    ⟨.redirectDashboard, tasks.eraseP (fun t => t.id == tid && t.user_id == uid)⟩

/-- The completion-timestamp invariant: `completed_at` is present if and
only if `is_completed` is true. -/
def taskOk (t : Task) : Prop :=
  t.is_completed = t.completed_at.isSome

/-! ### Session, login guard and the before-request hook (`src/app.py`) -/

/-- A stored `last_activity` string as seen by `datetime.fromisoformat`:
either it parses to a timestamp or it is malformed (the `except
ValueError` branch). -/
inductive TSVal where
  | ok (t : Int)
  | malformed
deriving Repr, DecidableEq

/-- The result of the `try/except` around `datetime.fromisoformat`:
a malformed value is replaced by `now`. -/
def fromIso (now : Int) : TSVal → Int
  | .ok t => t
  | .malformed => now

/-- The Flask session keys this application uses: `user_id` and
`last_activity` (each possibly absent). -/
structure Sess where
  user_id : Option Nat
  last_activity : Option TSVal
deriving Repr, DecidableEq

/-- Effect of `session.clear()`. -/
def clearedSess : Sess := ⟨none, none⟩

/-- Python truthiness of `session.get("user_id")`: present and nonzero. -/
def uidTruthy (s : Sess) : Bool :=
  match s.user_id with
  | some n => n != 0
  | none => false

/-- The `login_required` decorator of `src/app.py`: the wrapped view
runs exactly when `session.get("user_id")` is truthy (otherwise the
request is redirected to the login page). -/
def loginRequired (s : Sess) : Bool :=
  uidTruthy s

/-- Value `g.user`: `User.query.get(user_id)` resolved against the user
table, absent when no user identifier is in the session or when the
identifier matches no stored user. -/
def loadUser (users : List User) (s : Sess) : Option User :=
  match s.user_id with
  | some uid => users.find? (fun u => u.id == uid)
  | none => none

/-- The idle timeout of `load_logged_in_user_and_check_timeout`,
`timedelta(minutes=20)`, in seconds. -/
def idleTimeoutSeconds : Int := 20 * 60

/-- Result of the before-request hook: whether it short-circuited to a
login redirect, and the session afterwards. -/
structure BeforeResult where
  redirectedToLogin : Bool
  sess : Sess
deriving Repr, DecidableEq

/-- Hook `load_logged_in_user_and_check_timeout` of `src/app.py` (the session
part): when a truthy `user_id` and a recorded `last_activity` are both
present, parse the timestamp (malformed parses as `now`); if strictly
more than 20 minutes have elapsed, clear the session and redirect to
login; otherwise — and also when the timeout check was skipped — stamp
`last_activity` with `now` whenever `user_id` is truthy. -/
def beforeRequest (now : Int) (s : Sess) : BeforeResult :=
  if uidTruthy s ∧ s.last_activity.isSome then
    let la := fromIso now (s.last_activity.getD .malformed)
    if now - la > idleTimeoutSeconds then
      ⟨true, clearedSess⟩
    else if uidTruthy s then
      ⟨false, { s with last_activity := some (.ok now) }⟩
    else ⟨false, s⟩
  else if uidTruthy s then
    ⟨false, { s with last_activity := some (.ok now) }⟩
  else ⟨false, s⟩

/-! ### The dashboard (`src/app.py`, route `dashboard`)

The SQL layer is modelled over a `List Task` snapshot. `ilike` with the
pattern `"%" + term + "%"` is modelled by a SQL `LIKE` matcher over
lowercased character lists (`%` matches any run of characters, `_` any
single character). -/

/-- SQL `LIKE` pattern matching on character lists: `%` matches any
(possibly empty) run of characters — i.e. the rest of the pattern must
match some suffix — `_` matches any single character, and any other
pattern character matches only itself. -/
def likeMatch : List Char → List Char → Bool
  | [], s => s.isEmpty
  | pc :: ps, s =>
    if pc = '%' then s.tails.any (fun s' => likeMatch ps s')
    else if pc = '_' then
      match s with
      | [] => false
      | _ :: s' => likeMatch ps s'
    else
      match s with
      | [] => false
      | c :: s' => pc == c && likeMatch ps s'

/-- Call `Task.title.ilike(pattern)`: case-insensitive `LIKE`, i.e. `LIKE`
after lowercasing both sides. -/
def ilike (title pattern : List Char) : Bool :=
  likeMatch (pattern.map Char.toLower) (title.map Char.toLower)

/-- Python's `str.strip()` on a character list: drop whitespace from
both ends. -/
def stripChars (l : List Char) : List Char :=
  ((l.dropWhile Char.isWhitespace).reverse.dropWhile Char.isWhitespace).reverse

/-- The pattern `"%" + term + "%"` built in `dashboard` from the
stripped search term. -/
def searchPattern (term : List Char) : List Char :=
  '%' :: (term ++ ['%'])

/-- Query `Task.query.filter_by(user_id=g.user.id)`. -/
def userTasks (uid : Nat) (tasks : List Task) : List Task :=
  tasks.filter (fun t => t.user_id == uid)

/-- The status filter of `dashboard`: `request.args.get("status", "all")`
restricts to completed tasks for `"completed"`, to incomplete tasks for
`"incomplete"`, and applies no restriction otherwise. -/
def statusFiltered (uid : Nat) (status : Option String) (tasks : List Task) : List Task :=
  let base := userTasks uid tasks
  let sf := status.getD "all"
  if sf = "completed" then base.filter (fun t => t.is_completed)
  else if sf = "incomplete" then base.filter (fun t => !t.is_completed)
  else base

/-- The search filter of `dashboard`: applied only when
`search_form.search.data` is truthy (present and non-empty); the term is
stripped of surrounding whitespace and matched with `ilike` against the
pattern `"%" + term + "%"`. -/
def searchFiltered (search : Option String) (l : List Task) : List Task :=
  match search with
  | some s =>
    if s ≠ "" then
      l.filter (fun t => ilike t.title.toList (searchPattern (stripChars s.toList)))
    else l
  | none => l

/-- Ordering `order_by(Task.created_at.desc())`: most recently created first. -/
def createdDesc (a b : Task) : Bool :=
  b.created_at ≤ a.created_at

/-- The dashboard's task collection before pagination: the current
user's tasks, status-filtered, search-filtered, newest first. -/
def sortedTasks (uid : Nat) (status search : Option String) (tasks : List Task) : List Task :=
  (searchFiltered search (statusFiltered uid status tasks)).mergeSort createdDesc

/-- Tasks shown per dashboard page (`per_page = 5`). -/
def perPage : Nat := 5

/-- Combination of `request.args.get("page", 1, type=int)` and
`query.paginate(page=page, per_page=5, error_out=False)`: a missing or
unparsable `page` defaults to 1, a page below 1 is clamped to 1, and an
out-of-range page yields an empty item list. -/
def paginate (page : Option Int) (l : List Task) : List Task :=
  let p := page.getD 1
  let p := if p < 1 then 1 else p
  (l.drop ((p.toNat - 1) * perPage)).take perPage

/-- What the `dashboard` route renders: the page of tasks and the three
per-user statistics. -/
structure DashboardView where
  items : List Task
  total_tasks : Nat
  completed_tasks : Nat
  pending_tasks : Nat
deriving Repr, DecidableEq

/-- Route `dashboard` of `src/app.py`: filtered/searched/sorted and
paginated task list, plus the three counts computed over all of the
current user's tasks. -/
def dashboard (uid : Nat) (status search : Option String) (page : Option Int)
    (tasks : List Task) : DashboardView :=
  let items := paginate page (sortedTasks uid status search tasks)
  let total := (userTasks uid tasks).length
  let completed := (tasks.filter (fun t => t.user_id == uid && t.is_completed)).length
  { items := items
    total_tasks := total
    completed_tasks := completed
    pending_tasks := total - completed }

/-- The spec's search predicate, written from the spec's words for
comparison with the code's `ilike` filter: the title contains the search
text as a case-insensitive substring (anywhere in the title). -/
def specContainsCI (needle hay : List Char) : Bool :=
  decide ((needle.map Char.toLower) <:+: (hay.map Char.toLower))

/-- A character list free of the SQL `LIKE` wildcard characters. -/
def noWild (t : List Char) : Prop :=
  ∀ c ∈ t, c ≠ '%' ∧ c ≠ '_'

instance (t : List Char) : Decidable (noWild t) := by
  unfold noWild
  infer_instance

/-- Twelve incomplete tasks for user 1, listed most recently created
first (creation times 11 down to 0). -/
def sampleTasks : List Task :=
  (List.range 12).map (fun i => ⟨i + 1, "T", none, "Medium", false, (11 : Int) - i, none, none, 1⟩)

/-! ### Helper lemmas -/

theorem mem_updateFirst {p : Task → Bool} {g : Task → Task} {l : List Task} {x : Task}
    (hx : x ∈ updateFirst p g l) : x ∈ l ∨ ∃ y ∈ l, x = g y := by
  induction l with
  | nil => simp [updateFirst] at hx
  | cons t ts ih =>
    rw [updateFirst] at hx
    split at hx
    · rcases List.mem_cons.mp hx with h | h
      · exact Or.inr ⟨t, List.mem_cons_self t ts, h⟩
      · exact Or.inl (List.mem_cons_of_mem _ h)
    · rcases List.mem_cons.mp hx with h | h
      · exact Or.inl (h ▸ List.mem_cons_self t ts)
      · rcases ih h with h' | ⟨y, hy, hxy⟩
        · exact Or.inl (List.mem_cons_of_mem _ h')
        · exact Or.inr ⟨y, List.mem_cons_of_mem _ hy, hxy⟩

theorem taskOk_applyEdit {t : Task} (now : Int) (f : TaskFormData) (h : taskOk t) :
    taskOk (applyEdit now f t) := by
  unfold taskOk at h ⊢
  cases hf : f.is_completed <;> cases ht : t.is_completed <;>
    simp [applyEdit, hf, ht] <;> simp [hf, ht] at h <;> simp [h]

theorem taskOk_applyToggle (now : Int) (t : Task) : taskOk (applyToggle now t) := by
  unfold taskOk
  cases ht : t.is_completed <;> simp [applyToggle, ht]

theorem taskOk_newTask (now : Int) (newId uid : Nat) (f : TaskFormData) :
    taskOk (newTask now newId uid f) := by
  simp [taskOk, newTask]

theorem findOwned_eq_none {tid B : Nat} {tasks : List Task}
    (h : ∀ t' ∈ tasks, t'.id = tid → t'.user_id ≠ B) :
    findOwned tid B tasks = none := by
  rw [findOwned, List.find?_eq_none]
  intro t' ht'
  simp only [Bool.and_eq_true, beq_iff_eq, not_and]
  exact fun hid => h t' ht' hid

theorem findOwned_of_other_owner {B : Nat} {tasks : List Task} {T : Task}
    (hT : T ∈ tasks) (hids : (tasks.map Task.id).Nodup) (hown : T.user_id ≠ B) :
    findOwned T.id B tasks = none := by
  refine findOwned_eq_none (fun t' ht' hid => ?_)
  have : t' = T := List.inj_on_of_nodup_map hids ht' hT hid
  rw [this]
  exact hown

/-! ### Claim C1 -/

/-- Claim C1: after each operation that changes completion status
(create, edit submit, toggle-complete), every stored task satisfies
"`completed_at` is present iff `is_completed` is true", assuming all
tasks satisfied it before; and toggling an incomplete task twice returns
it to `is_completed = false` with `completed_at` absent. -/
theorem completion_sync_invariant (now now2 : Int) (newId uid tid : Nat)
    (f : TaskFormData) (tasks : List Task) (hinv : ∀ t ∈ tasks, taskOk t) :
    (∀ t ∈ (createTask now newId uid f tasks).tasks, taskOk t) ∧
    (∀ t ∈ (editTask now uid tid f tasks).tasks, taskOk t) ∧
    (∀ t ∈ (toggleComplete now uid tid tasks).tasks, taskOk t) ∧
    (∀ t : Task, t.is_completed = false →
      (applyToggle now2 (applyToggle now t)).is_completed = false ∧
      (applyToggle now2 (applyToggle now t)).completed_at = none) := by
  refine ⟨?_, ?_, ?_, ?_⟩
  · intro t ht
    rw [createTask] at ht
    split at ht
    · simp only [List.mem_append, List.mem_singleton] at ht
      rcases ht with h | h
      · exact hinv t h
      · exact h ▸ taskOk_newTask now newId uid f
    · exact hinv t ht
  · intro t ht
    rw [editTask] at ht
    split at ht
    · exact hinv t ht
    · split at ht
      · simp only at ht
        rcases mem_updateFirst ht with h | ⟨y, hy, hty⟩
        · exact hinv t h
        · exact hty ▸ taskOk_applyEdit now f (hinv y hy)
      · exact hinv t ht
  · intro t ht
    rw [toggleComplete] at ht
    split at ht
    · exact hinv t ht
    · simp only at ht
      rcases mem_updateFirst ht with h | ⟨y, hy, hty⟩
      · exact hinv t h
      · exact hty ▸ taskOk_applyToggle now y
  · intro t ht
    constructor <;> simp [applyToggle, ht]

/-- Witness for C1: toggling a concrete incomplete task twice leaves it
incomplete with no completion timestamp. -/
theorem completion_sync_invariant_witness :
    (applyToggle 7 (applyToggle 5 ⟨1, "A", none, "Medium", false, 0, none, none, 1⟩)).is_completed
      = false ∧
    (applyToggle 7 (applyToggle 5 ⟨1, "A", none, "Medium", false, 0, none, none, 1⟩)).completed_at
      = none :=
  (completion_sync_invariant 5 7 1 1 1 ⟨"A", "", none, .absent, false⟩ []
    (by intro t ht; simp at ht)).2.2.2
    ⟨1, "A", none, "Medium", false, 0, none, none, 1⟩ rfl

/-! ### Claim C2 -/

/-- Claim C2: a user B editing, toggling or deleting a task T owned by a
different user produces a not-found outcome and leaves the task table
unmodified (task identifiers being unique, as they are primary keys). -/
theorem ownership_not_found (now : Int) (B : Nat) (f : TaskFormData)
    (tasks : List Task) (T : Task) (hT : T ∈ tasks)
    (hids : (tasks.map Task.id).Nodup) (hown : T.user_id ≠ B) :
    editTask now B T.id f tasks = ⟨.notFound, tasks⟩ ∧
    toggleComplete now B T.id tasks = ⟨.notFound, tasks⟩ ∧
    deleteTask B T.id tasks = ⟨.notFound, tasks⟩ := by
  have h := findOwned_of_other_owner hT hids hown
  refine ⟨?_, ?_, ?_⟩ <;> simp [editTask, toggleComplete, deleteTask, h]

/-- Witness for C2: user 2 targeting user 1's task gets not-found from
all three routes and the table is unchanged. -/
theorem ownership_not_found_witness :
    editTask 9 2 1 ⟨"B", "", none, .absent, false⟩
        [⟨1, "A", none, "Medium", false, 0, none, none, 1⟩]
      = ⟨.notFound, [⟨1, "A", none, "Medium", false, 0, none, none, 1⟩]⟩ ∧
    toggleComplete 9 2 1 [⟨1, "A", none, "Medium", false, 0, none, none, 1⟩]
      = ⟨.notFound, [⟨1, "A", none, "Medium", false, 0, none, none, 1⟩]⟩ ∧
    deleteTask 2 1 [⟨1, "A", none, "Medium", false, 0, none, none, 1⟩]
      = ⟨.notFound, [⟨1, "A", none, "Medium", false, 0, none, none, 1⟩]⟩ :=
  ownership_not_found 9 2 ⟨"B", "", none, .absent, false⟩
    [⟨1, "A", none, "Medium", false, 0, none, none, 1⟩]
    ⟨1, "A", none, "Medium", false, 0, none, none, 1⟩
    (List.mem_singleton.mpr rfl) (by decide) (by decide)

/-! ### Claim C3 -/

/-- Claim C3: a valid create-task submission stores a task owned by the
current user with `is_completed = false` and `completed_at` absent, for
every submitted form value (in particular whatever `is_completed` was
submitted); when the priority field was not submitted it defaults to
"Medium", and `created_at` is the creation time. -/
theorem create_task_defaults (now : Int) (newId uid : Nat) (f : TaskFormData)
    (tasks : List Task) (hval : (TaskForm.validate f).1 = true) :
    createTask now newId uid f tasks
      = ⟨.redirectDashboard, tasks ++ [newTask now newId uid f]⟩ ∧
    (newTask now newId uid f).user_id = uid ∧
    (newTask now newId uid f).is_completed = false ∧
    (newTask now newId uid f).completed_at = none ∧
    (f.priority = none → (newTask now newId uid f).priority = "Medium") ∧
    (newTask now newId uid f).created_at = now := by
  refine ⟨?_, rfl, rfl, rfl, ?_, rfl⟩
  · rw [createTask, if_pos hval]
  · intro hp
    simp [newTask, priorityData, hp]

/-- Witness for C3: creating "Buy milk" with no other fields stores an
incomplete, Medium-priority task owned by user 1 with no completion
timestamp. -/
theorem create_task_defaults_witness :
    createTask 42 1 1 ⟨"Buy milk", "", none, .absent, true⟩ []
      = ⟨.redirectDashboard, [newTask 42 1 1 ⟨"Buy milk", "", none, .absent, true⟩]⟩ ∧
    (newTask 42 1 1 ⟨"Buy milk", "", none, .absent, true⟩).user_id = 1 ∧
    (newTask 42 1 1 ⟨"Buy milk", "", none, .absent, true⟩).is_completed = false ∧
    (newTask 42 1 1 ⟨"Buy milk", "", none, .absent, true⟩).completed_at = none ∧
    (newTask 42 1 1 ⟨"Buy milk", "", none, .absent, true⟩).priority = "Medium" ∧
    (newTask 42 1 1 ⟨"Buy milk", "", none, .absent, true⟩).created_at = 42 := by
  have h := create_task_defaults 42 1 1 ⟨"Buy milk", "", none, .absent, true⟩ [] (by decide)
  exact ⟨by rw [h.1]; rfl, h.2.1, h.2.2.1, h.2.2.2.1, h.2.2.2.2.1 rfl, h.2.2.2.2.2⟩

/-! ### Claims C5 and C6 (task-form validation) -/

theorem fieldErrors_fst {f : TaskFormData} {e : String × String}
    (he : e ∈ fieldErrors f) :
    e.1 = "title" ∨ e.1 = "description" ∨ e.1 = "priority" ∨ e.1 = "due_date" := by
  simp only [fieldErrors, List.mem_append, List.mem_map] at he
  rcases he with ((⟨m, _, rfl⟩ | ⟨m, _, rfl⟩) | ⟨m, _, rfl⟩) | ⟨m, _, rfl⟩ <;> simp

theorem fieldErrors_due_date_msg {f : TaskFormData} {m : String}
    (hm : ("due_date", m) ∈ fieldErrors f) : m = "Not a valid date value." := by
  simp only [fieldErrors, List.mem_append, List.mem_map, Prod.mk.injEq] at hm
  rcases hm with ((⟨x, _, hx, _⟩ | ⟨x, _, hx, _⟩) | ⟨x, _, hx, _⟩) | ⟨x, hx, _, hxm⟩
  · exact absurd hx (by decide)
  · exact absurd hx (by decide)
  · exact absurd hx (by decide)
  · cases hd : f.due_date <;> rw [hd] at hx <;> simp [dueDateProcessErrors] at hx
    rw [← hxm, hx]

/-- Claim C5 names a behavior the code does not have: the HTML task
form submits a blank due-date input as the empty string, which
`DateField.process_formdata` fails to parse (the field declares
`validators=[]` without `Optional()`, so nothing clears the process
error), and validation fails with "Not a valid date value." even
though every other field is valid — where the claim, the spec and the
field's own label "Due Date (optional)" require success with the due
date absent. Only a submission omitting the field from the form data
entirely validates with no due date. -/
theorem due_date_blank_rejected :
    TaskForm.validate ⟨"Buy milk", "", none, .malformed, false⟩
      = (false, [("due_date", "Not a valid date value.")]) ∧
    fieldErrors ⟨"Buy milk", "", none, .malformed, false⟩
      = [("due_date", "Not a valid date value.")] ∧
    TaskForm.validate ⟨"Buy milk", "", none, .absent, false⟩ = (true, []) ∧
    dueDateData RawDate.absent = none ∧
    dueDateData RawDate.malformed = none := by
  refine ⟨by decide, by decide, by decide, rfl, rfl⟩

/-- Claim C6: with all field-level validators passing, a present
(parsed) due date before January 1, 2000 fails validation with exactly
the realistic-date message on `due_date`, while a date on or after
January 1, 2000 passes; and when some field-level validator already
failed, the returned errors are exactly the field errors, the
realistic-date message is not among them, and the only `due_date`
message a field-level failure can carry is the parse error. -/
theorem due_date_lower_bound (f : TaskFormData) :
    (∀ d, f.due_date = .parsed d → fieldErrors f = [] →
      (SimpleDate.lt d minDueDate = true →
        TaskForm.validate f
          = (false, [("due_date", "Please choose a realistic due date.")])) ∧
      (SimpleDate.lt d minDueDate = false → TaskForm.validate f = (true, []))) ∧
    (fieldErrors f ≠ [] →
      TaskForm.validate f = (false, fieldErrors f) ∧
      ("due_date", "Please choose a realistic due date.") ∉ fieldErrors f ∧
      ∀ m, ("due_date", m) ∈ fieldErrors f → m = "Not a valid date value.") := by
  constructor
  · intro d hd hok
    constructor <;> intro hlt <;> rw [TaskForm.validate, hok] <;>
      simp [hd, dueDateData, hlt]
  · intro hne
    refine ⟨?_, ?_, fun m hm => fieldErrors_due_date_msg hm⟩
    · rw [TaskForm.validate]
      simp [List.isEmpty_iff, hne]
    · intro hmem
      exact absurd (fieldErrors_due_date_msg hmem) (by decide)

/-- Witness for C6: due date 1999-12-31 fails with the realistic-date
message, 2000-01-01 passes, and a missing title yields exactly the
field errors, with no realistic-date message among them. -/
theorem due_date_lower_bound_witness :
    TaskForm.validate ⟨"Buy milk", "", none, .parsed ⟨1999, 12, 31⟩, false⟩
      = (false, [("due_date", "Please choose a realistic due date.")]) ∧
    TaskForm.validate ⟨"Buy milk", "", none, .parsed ⟨2000, 1, 1⟩, false⟩
      = (true, []) ∧
    TaskForm.validate ⟨"", "", none, .parsed ⟨1999, 12, 31⟩, false⟩
      = (false, fieldErrors ⟨"", "", none, .parsed ⟨1999, 12, 31⟩, false⟩) ∧
    ("due_date", "Please choose a realistic due date.")
      ∉ fieldErrors ⟨"", "", none, .parsed ⟨1999, 12, 31⟩, false⟩ :=
  ⟨((due_date_lower_bound ⟨"Buy milk", "", none, .parsed ⟨1999, 12, 31⟩, false⟩).1
      ⟨1999, 12, 31⟩ rfl (by decide)).1 (by decide),
   ((due_date_lower_bound ⟨"Buy milk", "", none, .parsed ⟨2000, 1, 1⟩, false⟩).1
      ⟨2000, 1, 1⟩ rfl (by decide)).2 (by decide),
   ((due_date_lower_bound ⟨"", "", none, .parsed ⟨1999, 12, 31⟩, false⟩).2
      (by decide)).1,
   ((due_date_lower_bound ⟨"", "", none, .parsed ⟨1999, 12, 31⟩, false⟩).2
      (by decide)).2.1⟩

/-! ### Claim C4 (inactivity timeout) -/

/-- Claim C4: for a request whose session carries a (truthy) user
identifier and a recorded last-activity value, if the value parses and
strictly more than 20 minutes have elapsed the whole session is cleared
and the request is redirected to login; if at most 20 minutes have
elapsed — including the malformed case, which parses as "now" — the
request proceeds and the stored last-activity value is refreshed to the
current time. -/
theorem inactivity_timeout (now : Int) (s : Sess) (uid : Nat) (v : TSVal)
    (hu : s.user_id = some uid) (hu0 : uid ≠ 0) (hl : s.last_activity = some v) :
    ((∃ t, v = .ok t ∧ now - t > idleTimeoutSeconds) →
      beforeRequest now s = ⟨true, clearedSess⟩) ∧
    ((∀ t, v = .ok t → now - t ≤ idleTimeoutSeconds) →
      beforeRequest now s = ⟨false, { s with last_activity := some (.ok now) }⟩) := by
  have htruthy : uidTruthy s = true := by
    rw [uidTruthy, hu]
    simpa using hu0
  constructor
  · rintro ⟨t, rfl, hgt⟩
    rw [beforeRequest, if_pos ⟨htruthy, by rw [hl]; rfl⟩, hl]
    simp only [Option.getD_some, fromIso]
    rw [if_pos hgt]
  · intro hle
    rw [beforeRequest, if_pos ⟨htruthy, by rw [hl]; rfl⟩, hl]
    simp only [Option.getD_some]
    cases v with
    | ok t =>
      simp only [fromIso]
      rw [if_neg (by simpa using hle t rfl), if_pos htruthy]
    | malformed =>
      simp only [fromIso]
      rw [if_neg (by simp [idleTimeoutSeconds]), if_pos htruthy]

/-- Witness for C4: a last activity 21 minutes old forces a logout with
a cleared session; one 19 minutes old proceeds with the timestamp
refreshed. -/
theorem inactivity_timeout_witness :
    beforeRequest 1260 ⟨some 1, some (.ok 0)⟩ = ⟨true, clearedSess⟩ ∧
    beforeRequest 1140 ⟨some 1, some (.ok 0)⟩
      = ⟨false, ⟨some 1, some (.ok 1140)⟩⟩ :=
  ⟨(inactivity_timeout 1260 ⟨some 1, some (.ok 0)⟩ 1 (.ok 0) rfl (by decide) rfl).1
      ⟨0, rfl, by decide⟩,
   (inactivity_timeout 1140 ⟨some 1, some (.ok 0)⟩ 1 (.ok 0) rfl (by decide) rfl).2
      (by intro t ht; cases ht; decide)⟩

/-! ### Claim C10 (login guard admits stale identifiers) -/

/-- Claim C10: the login-required guard admits every session carrying a
truthy user identifier without consulting the user table, and for a
session whose identifier matches no stored user the guard still admits
the request while the resolved current user is absent. -/
theorem login_guard_unchecked :
    (∀ (s : Sess) (uid : Nat) (users : List User),
      s.user_id = some uid → uid ≠ 0 → loginRequired s = true) ∧
    loginRequired ⟨some 5, none⟩ = true ∧
    loadUser [] ⟨some 5, none⟩ = none := by
  refine ⟨?_, rfl, rfl⟩
  intro s uid users hu hu0
  rw [loginRequired, uidTruthy, hu]
  simpa using hu0

/-- Witness for C10: a session naming user 7 passes the guard whatever
the user table contains. -/
theorem login_guard_unchecked_witness :
    loginRequired ⟨some 7, some (.ok 0)⟩ = true :=
  login_guard_unchecked.1 ⟨some 7, some (.ok 0)⟩ 7 [] rfl (by decide)

/-! ### Claims C7 and C9 (dashboard listing) -/

theorem statusFiltered_subset (uid : Nat) (status : Option String) (tasks : List Task) :
    statusFiltered uid status tasks ⊆ userTasks uid tasks := by
  intro t ht
  simp only [statusFiltered] at ht
  split at ht
  · exact List.mem_of_mem_filter ht
  · split at ht
    · exact List.mem_of_mem_filter ht
    · exact ht

theorem searchFiltered_subset (search : Option String) (l : List Task) :
    searchFiltered search l ⊆ l := by
  intro t ht
  cases search with
  | none => exact ht
  | some s =>
    simp only [searchFiltered] at ht
    split at ht
    · exact List.mem_of_mem_filter ht
    · exact ht

theorem mem_userTasks {uid : Nat} {tasks : List Task} {t : Task}
    (h : t ∈ userTasks uid tasks) : t.user_id = uid := by
  rw [userTasks, List.mem_filter] at h
  exact beq_iff_eq.mp h.2

theorem mem_statusFiltered_of_mem_items {uid : Nat} {status search : Option String}
    {page : Option Int} {tasks : List Task} {t : Task}
    (ht : t ∈ (dashboard uid status search page tasks).items) :
    t ∈ statusFiltered uid status tasks := by
  have h1 : t ∈ sortedTasks uid status search tasks := by
    simp only [dashboard, paginate] at ht
    exact (List.drop_subset _ _) ((List.take_subset _ _) ht)
  rw [sortedTasks, List.mem_mergeSort] at h1
  exact searchFiltered_subset search _ h1

theorem statusFiltered_completed (uid : Nat) (tasks : List Task) :
    statusFiltered uid (some "completed") tasks
      = (userTasks uid tasks).filter (fun t => t.is_completed) := by
  simp [statusFiltered]

theorem statusFiltered_incomplete (uid : Nat) (tasks : List Task) :
    statusFiltered uid (some "incomplete") tasks
      = (userTasks uid tasks).filter (fun t => !t.is_completed) := by
  simp [statusFiltered]

/-- Claim C7: every listed dashboard task belongs to the requesting
user; status "completed" restricts the listing to completed tasks and
"incomplete" to incomplete ones, any other value applying no
restriction; and the three counts are computed over all of the user's
tasks, independent of status filter, search term and page number. -/
theorem dashboard_scope_and_counts (uid : Nat) (status search : Option String)
    (page : Option Int) (tasks : List Task) :
    (∀ t ∈ (dashboard uid status search page tasks).items,
      t.user_id = uid ∧
      (status = some "completed" → t.is_completed = true) ∧
      (status = some "incomplete" → t.is_completed = false)) ∧
    (status.getD "all" ≠ "completed" → status.getD "all" ≠ "incomplete" →
      statusFiltered uid status tasks = userTasks uid tasks) ∧
    (dashboard uid status search page tasks).total_tasks
      = (userTasks uid tasks).length ∧
    (dashboard uid status search page tasks).completed_tasks
      = ((userTasks uid tasks).filter (fun t => t.is_completed)).length ∧
    (dashboard uid status search page tasks).pending_tasks
      = (userTasks uid tasks).length
        - ((userTasks uid tasks).filter (fun t => t.is_completed)).length ∧
    (∀ status' search' page',
      (dashboard uid status' search' page' tasks).total_tasks
        = (dashboard uid status search page tasks).total_tasks ∧
      (dashboard uid status' search' page' tasks).completed_tasks
        = (dashboard uid status search page tasks).completed_tasks ∧
      (dashboard uid status' search' page' tasks).pending_tasks
        = (dashboard uid status search page tasks).pending_tasks) := by
  have hcount : ((userTasks uid tasks).filter (fun t => t.is_completed)).length
      = (tasks.filter (fun t => t.user_id == uid && t.is_completed)).length := by
    rw [userTasks, List.filter_filter]
    exact congrArg List.length (List.filter_congr (fun x _ => Bool.and_comm _ _))
  refine ⟨?_, ?_, rfl, hcount.symm, by rw [hcount]; rfl, fun _ _ _ => ⟨rfl, rfl, rfl⟩⟩
  · intro t ht
    have hst := mem_statusFiltered_of_mem_items ht
    refine ⟨mem_userTasks (statusFiltered_subset uid status tasks hst), ?_, ?_⟩
    · intro hc
      rw [hc, statusFiltered_completed, List.mem_filter] at hst
      exact hst.2
    · intro hc
      rw [hc, statusFiltered_incomplete, List.mem_filter] at hst
      simpa using hst.2
  · intro h1 h2
    simp only [statusFiltered, if_neg h1, if_neg h2]

/-- Witness for C7: a task listed under status "completed" for user 1
is that user's and completed; an unknown status value filters nothing;
and the counts for a concrete two-task table are independent of the
filter parameters. -/
theorem dashboard_scope_and_counts_witness :
    statusFiltered 1 (some "whatever")
        [⟨1, "A", none, "Medium", true, 0, some 0, none, 1⟩]
      = userTasks 1 [⟨1, "A", none, "Medium", true, 0, some 0, none, 1⟩] ∧
    (dashboard 1 (some "completed") none none
        [⟨1, "A", none, "Medium", true, 0, some 0, none, 1⟩]).total_tasks
      = (userTasks 1 [⟨1, "A", none, "Medium", true, 0, some 0, none, 1⟩]).length :=
  ⟨(dashboard_scope_and_counts 1 (some "whatever") none none
      [⟨1, "A", none, "Medium", true, 0, some 0, none, 1⟩]).2.1 (by decide) (by decide),
   (dashboard_scope_and_counts 1 (some "completed") none none
      [⟨1, "A", none, "Medium", true, 0, some 0, none, 1⟩]).2.2.1⟩

/-- Claim C9: the dashboard's task collection is ordered most recently
created first; the page parameter (default 1, values below 1 clamped
to 1) selects a 5-task slice, an out-of-range page giving an empty page
rather than an error. -/
theorem dashboard_pagination (uid : Nat) (status search : Option String)
    (page : Option Int) (tasks : List Task) :
    List.Pairwise (fun a b => b.created_at ≤ a.created_at)
      (sortedTasks uid status search tasks) ∧
    (page = none →
      (dashboard uid status search page tasks).items
        = (sortedTasks uid status search tasks).take perPage) ∧
    (∀ p : Int, page = some p → 1 ≤ p →
      (dashboard uid status search page tasks).items
        = ((sortedTasks uid status search tasks).drop ((p.toNat - 1) * perPage)).take
            perPage ∧
      (dashboard uid status search page tasks).items.length
        = min perPage
            ((sortedTasks uid status search tasks).length - (p.toNat - 1) * perPage) ∧
      ((sortedTasks uid status search tasks).length ≤ (p.toNat - 1) * perPage →
        (dashboard uid status search page tasks).items = [])) ∧
    (∀ p : Int, page = some p → p < 1 →
      (dashboard uid status search page tasks).items
        = (sortedTasks uid status search tasks).take perPage) := by
  refine ⟨?_, ?_, ?_, ?_⟩
  · have hs := @List.sorted_mergeSort Task createdDesc
      (fun a b c hab hbc => by
        simp only [createdDesc, decide_eq_true_eq] at *
        exact le_trans hbc hab)
      (fun a b => by
        simp only [createdDesc, Bool.or_eq_true, decide_eq_true_eq]
        exact le_total _ _)
      (searchFiltered search (statusFiltered uid status tasks))
    rw [sortedTasks]
    exact hs.imp (fun h => by simpa [createdDesc] using h)
  · intro hp
    simp [dashboard, paginate, hp]
  · intro p hp h1
    have hlt : ¬ p < 1 := not_lt.mpr h1
    refine ⟨?_, ?_, ?_⟩
    · simp [dashboard, paginate, hp, hlt]
    · simp [dashboard, paginate, hp, hlt, List.length_take, List.length_drop]
    · intro hlen
      simp [dashboard, paginate, hp, hlt, List.drop_eq_nil_of_le hlen]
  · intro p hp hlt
    have h1 : p < 1 := hlt
    simp [dashboard, paginate, hp, h1]

/-- Witness for C9: with twelve tasks for one user, page 1 holds 5
tasks, page 3 holds the remaining 2, and page 4 is empty. -/
theorem dashboard_pagination_witness :
    (dashboard 1 none none (some 1) sampleTasks).items.length = 5 ∧
    (dashboard 1 none none (some 3) sampleTasks).items.length = 2 ∧
    (dashboard 1 none none (some 4) sampleTasks).items = [] := by
  have e : sortedTasks 1 none none sampleTasks
      = searchFiltered none (statusFiltered 1 none sampleTasks) :=
    List.mergeSort_of_sorted (by decide)
  refine ⟨?_, ?_, ?_⟩
  · have h := ((dashboard_pagination 1 none none (some 1) sampleTasks).2.2.1
      1 rfl (by decide)).2.1
    rw [e] at h
    simpa using h
  · have h := ((dashboard_pagination 1 none none (some 3) sampleTasks).2.2.1
      3 rfl (by decide)).2.1
    rw [e] at h
    simpa using h
  · exact ((dashboard_pagination 1 none none (some 4) sampleTasks).2.2.1
      4 rfl (by decide)).2.2 (by rw [e]; decide)

/-! ### Claim C8 (dashboard title search) -/

theorem likeMatch_percent (ps : List Char) (s : List Char) :
    likeMatch ('%' :: ps) s = s.tails.any (fun s' => likeMatch ps s') := rfl

theorem likeMatch_percent_only (s : List Char) : likeMatch ['%'] s = true := by
  rw [likeMatch_percent, List.any_eq_true]
  exact ⟨[], List.mem_tails _ _ |>.mpr List.nil_suffix, rfl⟩

theorem likeMatch_append_percent :
    ∀ (t : List Char), noWild t → ∀ s, (likeMatch (t ++ ['%']) s = true ↔ t <+: s)
  | [], _, s => by
    simp [likeMatch_percent_only s]
  | c :: t', hw, s => by
    have hc := hw c (List.mem_cons_self c t')
    have hw' : noWild t' := fun x hx => hw x (List.mem_cons_of_mem _ hx)
    cases s with
    | nil =>
      rw [List.cons_append, likeMatch]
      simp [hc.1, hc.2]
    | cons d s' =>
      rw [List.cons_append, likeMatch]
      simp only [if_neg hc.1, if_neg hc.2, Bool.and_eq_true, beq_iff_eq,
        List.cons_prefix_cons, likeMatch_append_percent t' hw' s']

theorem likeMatch_full {t : List Char} (hw : noWild t) (s : List Char) :
    likeMatch ('%' :: (t ++ ['%'])) s = true ↔ t <:+: s := by
  rw [likeMatch_percent, List.any_eq_true]
  constructor
  · rintro ⟨s', hs', h⟩
    rw [List.mem_tails] at hs'
    exact List.infix_iff_prefix_suffix.mpr ⟨s', (likeMatch_append_percent t hw s').mp h, hs'⟩
  · intro h
    obtain ⟨u, hpre, hsuf⟩ := List.infix_iff_prefix_suffix.mp h
    exact ⟨u, (List.mem_tails _ _).mpr hsuf, (likeMatch_append_percent t hw u).mpr hpre⟩

theorem toLower_not_wild {c : Char} (h1 : c ≠ '%') (h2 : c ≠ '_') :
    Char.toLower c ≠ '%' ∧ Char.toLower c ≠ '_' := by
  simp only [Char.toLower]
  by_cases h : c.toNat ≥ 65 ∧ c.toNat ≤ 90
  · rw [if_pos h]
    obtain ⟨ha, hb⟩ := h
    rw [ge_iff_le] at ha
    generalize c.toNat = n at ha hb ⊢
    interval_cases n <;> exact ⟨by decide, by decide⟩
  · rw [if_neg h]
    exact ⟨h1, h2⟩

theorem noWild_map_toLower {t : List Char} (hw : noWild t) :
    noWild (t.map Char.toLower) := by
  intro c hc
  rw [List.mem_map] at hc
  obtain ⟨d, hd, rfl⟩ := hc
  exact toLower_not_wild (hw d hd).1 (hw d hd).2

theorem searchPattern_map_toLower (term : List Char) :
    (searchPattern term).map Char.toLower
      = '%' :: ((term.map Char.toLower) ++ ['%']) := by
  have hpc : Char.toLower '%' = '%' := by decide
  simp [searchPattern, List.map_append, hpc]

theorem ilike_eq_spec {term : List Char} (hw : noWild term) (title : String) :
    ilike title.toList (searchPattern term) = specContainsCI term title.toList := by
  have h := likeMatch_full (noWild_map_toLower hw) (title.toList.map Char.toLower)
  rw [ilike, searchPattern_map_toLower, specContainsCI]
  by_cases hin :
      (term.map Char.toLower) <:+: (title.toList.map Char.toLower)
  · rw [h.mpr hin]
    exact (decide_eq_true hin).symm
  · have hfalse := Bool.not_eq_true _ |>.mp (fun hc => hin (h.mp hc))
    rw [hfalse]
    exact (decide_eq_false hin).symm

theorem searchFiltered_eq_filter_contains {s : String} (hs : s ≠ "")
    (hw : noWild (stripChars s.toList)) (l : List Task) :
    searchFiltered (some s) l
      = l.filter (fun t => specContainsCI (stripChars s.toList) t.title.toList) := by
  rw [searchFiltered, if_pos hs]
  exact List.filter_congr (fun t _ => ilike_eq_spec hw t.title)

/-- Claim C8 as stated is false on the code: the search term is
whitespace-stripped before matching, and SQL `LIKE` wildcard characters
in it match more than themselves. With search " x ", the task titled
"axb" is listed although "axb" does not contain " x " as a
case-insensitive substring; with search "a_b", the task titled "aXb" is
listed although "aXb" does not contain "a_b" as a case-insensitive
substring. -/
theorem search_substring_counterexample :
    ((dashboard 1 none (some " x ") none
          [⟨1, "axb", none, "Medium", false, 0, none, none, 1⟩]).items
        = [⟨1, "axb", none, "Medium", false, 0, none, none, 1⟩] ∧
      specContainsCI " x ".toList "axb".toList = false) ∧
    ((dashboard 1 none (some "a_b") none
          [⟨1, "aXb", none, "Medium", false, 0, none, none, 1⟩]).items
        = [⟨1, "aXb", none, "Medium", false, 0, none, none, 1⟩] ∧
      specContainsCI "a_b".toList "aXb".toList = false) := by
  have e1 : sortedTasks 1 none (some " x ")
        [⟨1, "axb", none, "Medium", false, 0, none, none, 1⟩]
      = searchFiltered (some " x ") (statusFiltered 1 none
          [⟨1, "axb", none, "Medium", false, 0, none, none, 1⟩]) :=
    List.mergeSort_of_sorted (by decide)
  have e2 : sortedTasks 1 none (some "a_b")
        [⟨1, "aXb", none, "Medium", false, 0, none, none, 1⟩]
      = searchFiltered (some "a_b") (statusFiltered 1 none
          [⟨1, "aXb", none, "Medium", false, 0, none, none, 1⟩]) :=
    List.mergeSort_of_sorted (by decide)
  refine ⟨⟨?_, by decide⟩, ⟨?_, by decide⟩⟩
  · show paginate none (sortedTasks 1 none (some " x ") _) = _
    rw [e1]
    decide
  · show paginate none (sortedTasks 1 none (some "a_b") _) = _
    rw [e2]
    decide

/-- Claim C8 amended: for a non-empty search parameter whose
whitespace-trimmed text contains no SQL `LIKE` wildcard characters, the
dashboard's search step keeps exactly the status-filtered tasks whose
title contains the trimmed search text as a case-insensitive substring:
the search filter equals that restriction, every listed item's title
contains the trimmed text, and every status-filtered task whose title
contains it is in the (pre-pagination) result collection. -/
theorem search_matches_trimmed (uid : Nat) (status : Option String) (s : String)
    (page : Option Int) (tasks : List Task) (hs : s ≠ "")
    (hw : noWild (stripChars s.toList)) :
    searchFiltered (some s) (statusFiltered uid status tasks)
      = (statusFiltered uid status tasks).filter
          (fun t => specContainsCI (stripChars s.toList) t.title.toList) ∧
    (∀ t ∈ (dashboard uid status (some s) page tasks).items,
      specContainsCI (stripChars s.toList) t.title.toList = true) ∧
    (∀ t ∈ statusFiltered uid status tasks,
      specContainsCI (stripChars s.toList) t.title.toList = true →
      t ∈ sortedTasks uid status (some s) tasks) := by
  have hfil := searchFiltered_eq_filter_contains hs hw (statusFiltered uid status tasks)
  refine ⟨hfil, ?_, ?_⟩
  · intro t ht
    have h1 : t ∈ sortedTasks uid status (some s) tasks := by
      simp only [dashboard, paginate] at ht
      exact (List.drop_subset _ _) ((List.take_subset _ _) ht)
    rw [sortedTasks, List.mem_mergeSort, hfil, List.mem_filter] at h1
    exact h1.2
  · intro t ht hmatch
    rw [sortedTasks, List.mem_mergeSort, hfil, List.mem_filter]
    exact ⟨ht, hmatch⟩

/-- Witness for amended C8: on the spec's example titles, searching
"write" keeps exactly the two "Write …" tasks. -/
theorem search_matches_trimmed_witness :
    searchFiltered (some "write") (statusFiltered 1 none
        [⟨1, "Write report", none, "Medium", false, 2, none, none, 1⟩,
         ⟨2, "Write email", none, "Medium", false, 1, none, none, 1⟩,
         ⟨3, "Clean desk", none, "Medium", false, 0, none, none, 1⟩])
      = (statusFiltered 1 none
        [⟨1, "Write report", none, "Medium", false, 2, none, none, 1⟩,
         ⟨2, "Write email", none, "Medium", false, 1, none, none, 1⟩,
         ⟨3, "Clean desk", none, "Medium", false, 0, none, none, 1⟩]).filter
          (fun t => specContainsCI (stripChars "write".toList) t.title.toList) :=
  (search_matches_trimmed 1 none "write" none
    [⟨1, "Write report", none, "Medium", false, 2, none, none, 1⟩,
     ⟨2, "Write email", none, "Medium", false, 1, none, none, 1⟩,
     ⟨3, "Clean desk", none, "Medium", false, 0, none, none, 1⟩]
    (by decide) (by decide)).1

end Todo
